import Mathlib

/-!
Shallow embedding of `core/test-kit/src/lib.rs` (zksync test harness).

Conventions of the embedding:
* Rust panics (`expect`, `panic!`, out-of-bounds `Vec` indexing) are modelled
  as `Except String α` values, `.error msg` carrying the panic message.
* Blocking external calls (the settlement chain, the state-keeper actor's
  replies, thread join, randomness) are modelled by an `Oracle` record that
  supplies the result of each such call; the harness body is a pure function
  of the configuration and the oracle, producing the ordered trace of its
  externally visible actions plus its termination outcome.
* `BigDecimal` amounts are modelled as `ℚ`.
-/

namespace TestKit

/-- Ledger-native (zksync) account address — `models::node::AccountAddress`. -/
structure AccountAddress where
  data : Nat
  deriving DecidableEq, Repr

/-- On-chain (Ethereum) address — `web3::types::Address`. -/
structure EthAddress where
  data : Nat
  deriving DecidableEq, Repr

/-- Token identifier, `models::node::TokenId`. -/
abbrev TokenId := Nat

/-- Per-account sequence number, `models::node::Nonce`. -/
abbrev Nonce := Nat

/-- The unsigned fields of a `Transfer`, the payload over which its
signature is produced (order as in the struct). -/
structure TransferFields where
  from_ : AccountAddress
  to_ : AccountAddress
  token : TokenId
  amount : ℚ
  fee : ℚ
  nonce : Nonce
  deriving DecidableEq, Repr

/-- The unsigned fields of a `Withdraw`; the destination is an on-chain
address. -/
structure WithdrawFields where
  from_ : AccountAddress
  eth_address : EthAddress
  token : TokenId
  amount : ℚ
  fee : ℚ
  nonce : Nonce
  deriving DecidableEq, Repr

/-- Canonical byte-serialization of unsigned transaction fields,
kept symbolic: two encodings are equal iff the fields are. -/
inductive TxMessage where
  | transferMsg (f : TransferFields)
  | withdrawMsg (f : WithdrawFields)
  deriving DecidableEq, Repr

/-- Modelled from the spec: the signing boundary is a "per-account credential
capable of producing a signature over a canonical byte encoding of
transaction fields; treated as opaque".  A signature symbolically binds the
signing key and the exact message. -/
inductive TxSignature where
  | empty
  | sig (sk : Nat) (msg : TxMessage)
  deriving DecidableEq, Repr

/-- Transfer transaction, `models::node::Transfer`: unsigned fields plus signature. -/
structure Transfer where
  from_ : AccountAddress
  to_ : AccountAddress
  token : TokenId
  amount : ℚ
  fee : ℚ
  nonce : Nonce
  signature : TxSignature
  deriving DecidableEq, Repr

/-- Withdraw transaction, `models::node::Withdraw`: unsigned fields plus signature. -/
structure Withdraw where
  from_ : AccountAddress
  eth_address : EthAddress
  token : TokenId
  amount : ℚ
  fee : ℚ
  nonce : Nonce
  signature : TxSignature
  deriving DecidableEq, Repr

/-- Signed transaction, `models::node::FranklinTx`: tagged variant. -/
inductive FranklinTx where
  | Transfer (t : Transfer)
  | Withdraw (w : Withdraw)
  deriving DecidableEq, Repr

/-- Encoding `Transfer::get_bytes`: byte-serialization of the unsigned fields. -/
def Transfer.get_bytes (t : Transfer) : TxMessage :=
  .transferMsg ⟨t.from_, t.to_, t.token, t.amount, t.fee, t.nonce⟩

/-- Encoding `Withdraw::get_bytes`: byte-serialization of the unsigned fields. -/
def Withdraw.get_bytes (w : Withdraw) : TxMessage :=
  .withdrawMsg ⟨w.from_, w.eth_address, w.token, w.amount, w.fee, w.nonce⟩

/-- A zksync (ledger) account: signing credential plus ledger-native
address (`zksync_account::ZksyncAccount`). -/
structure ZksyncAccount where
  private_key : Nat
  address : AccountAddress
  deriving DecidableEq, Repr

/-- An Ethereum (on-chain) account: signing credential plus on-chain
address (`eth_account::EthereumAccount`; the transport handle carries no
state relevant to the claims and is omitted). -/
structure EthereumAccount where
  private_key : Nat
  address : EthAddress
  deriving DecidableEq, Repr

/-- Modelled from the spec: `ZksyncAccount::sign_transfer` (the body lives in
`zksync_account.rs`, not shown) "constructs the unsigned fields and requests
a signature from the source account's credential" over their canonical
encoding. -/
def ZksyncAccount.sign_transfer (acc : ZksyncAccount) (token : TokenId)
    (amount fee : ℚ) (to_ : AccountAddress) (nonce : Nonce) : Transfer :=
  let unsigned : Transfer :=
    { from_ := acc.address, to_ := to_, token := token, amount := amount,
      fee := fee, nonce := nonce, signature := TxSignature.empty }
  { unsigned with
      signature := TxSignature.sig acc.private_key unsigned.get_bytes }

/-- Modelled from the spec: `ZksyncAccount::sign_withdraw` (body in
`zksync_account.rs`, not shown), as `sign_transfer` but toward an on-chain
destination address. -/
def ZksyncAccount.sign_withdraw (acc : ZksyncAccount) (token : TokenId)
    (amount fee : ℚ) (to_ : EthAddress) (nonce : Nonce) : Withdraw :=
  let unsigned : Withdraw :=
    { from_ := acc.address, eth_address := to_, token := token,
      amount := amount, fee := fee, nonce := nonce,
      signature := TxSignature.empty }
  { unsigned with
      signature := TxSignature.sig acc.private_key unsigned.get_bytes }

/-- Modelled from the spec: a priority operation is "a deposit record
(token id, amount, fee, destination ledger address) produced by submitting
an on-chain deposit transaction" (`models::node::PriorityOp`, not shown);
the harness carries it opaquely into the proposed block. -/
structure PriorityOp where
  token : TokenId
  amount : ℚ
  fee : ℚ
  to_ : AccountAddress
  deriving DecidableEq, Repr

/-- The on-chain submission made by `EthereumAccount::deposit_eth(amount,
fee, &to)`: which on-chain account submits, and the arguments passed. -/
structure DepositEthCall where
  account : EthereumAccount
  amount : ℚ
  fee : ℚ
  to_ : AccountAddress
  deriving DecidableEq, Repr

/-- Conversion `eth_account::parse_ether`: converts a decimal amount of ether into the
chain's base unit (wei, `10^18` per unit).  String parsing is glue; the
model takes the parsed decimal. -/
def parse_ether (q : ℚ) : ℚ := q * 10 ^ 18

/-- The account registry: two index-addressed collections. -/
structure AccountSet where
  eth_accounts : List EthereumAccount
  zksync_accounts : List ZksyncAccount
  deriving DecidableEq, Repr

/-- Registry operation `AccountSet::deposit`: indexes the two registries (out-of-range is the
Rust `Vec` index panic, `.error "index out of bounds"`), performs the
blocking on-chain submission `from.deposit_eth(amount, fee, &to.address)`
— recorded in the second component — and unwraps the chain's response
(`.expect("deposit should not fail")`).  `chain` is the settlement chain's
response to a submission (`none` = chain error).  `token_id` is accepted
but, as in the source, not passed on. -/
def AccountSet.deposit (s : AccountSet) (from_ to_ : Nat) (token_id : TokenId)
    (amount fee : ℚ) (chain : DepositEthCall → Option PriorityOp) :
    Except String PriorityOp × List DepositEthCall :=
  match s.eth_accounts.get? from_, s.zksync_accounts.get? to_ with
  | some f, some t =>
      let c : DepositEthCall :=
        { account := f, amount := amount, fee := fee, to_ := t.address }
      (match chain c with
       | some p => .ok p
       | none => .error "deposit should not fail", [c])
  | _, _ => (.error "index out of bounds", [])

/-- Registry operation `AccountSet::transfer`: indexes the ledger registry twice, asks the
source account's credential to sign, and tags the result `Transfer`.  The
second component is the list of on-chain submissions performed: none. -/
def AccountSet.transfer (s : AccountSet) (from_ to_ : Nat) (token_id : TokenId)
    (amount fee : ℚ) (nonce : Nonce) :
    Except String FranklinTx × List DepositEthCall :=
  match s.zksync_accounts.get? from_, s.zksync_accounts.get? to_ with
  | some f, some t =>
      (.ok (FranklinTx.Transfer
        (f.sign_transfer token_id amount fee t.address nonce)), [])
  | _, _ => (.error "index out of bounds", [])

/-- Registry operation `AccountSet::withdraw`: as `transfer`, but the destination is indexed in
the on-chain registry and the result is tagged `Withdraw`. -/
def AccountSet.withdraw (s : AccountSet) (from_ to_ : Nat) (token_id : TokenId)
    (amount fee : ℚ) (nonce : Nonce) :
    Except String FranklinTx × List DepositEthCall :=
  match s.zksync_accounts.get? from_, s.eth_accounts.get? to_ with
  | some f, some t =>
      (.ok (FranklinTx.Withdraw
        (f.sign_withdraw token_id amount fee t.address nonce)), [])
  | _, _ => (.error "index out of bounds", [])

/-- Modelled from the spec: a ledger account view (`models::node::Account`,
not shown) — an address plus per-token balances, "default (zero) balance"
meaning an empty balance table. -/
structure Account where
  address : AccountAddress
  balances : List (TokenId × ℚ)
  nonce : Nonce
  deriving DecidableEq, Repr

/-- Modelled from the spec: `Account::default_with_address` (in the `models`
crate, not shown) — "the default/zero account constructed for exactly that
queried address": zero balances, zero nonce, the given address. -/
def Account.default_with_address (a : AccountAddress) : Account :=
  { address := a, balances := [], nonce := 0 }

/-- Per-token balance lookup; absent tokens read as zero. -/
def Account.get_balance (acc : Account) (token : TokenId) : ℚ :=
  match acc.balances.lookup token with
  | some b => b
  | none => 0

/-- Ledger account table, `models::node::AccountMap`: account index → account. -/
abbrev AccountMap := List (Nat × Account)

/-- Configuration: the fields of `server::ConfigurationOptions` the harness
reads.  Loading is out of scope. -/
structure ConfigurationOptions where
  operator_franklin_addr : AccountAddress
  operator_eth_addr : EthAddress
  operator_private_key : Nat
  deriving DecidableEq, Repr

/-- Initial state parameters, `server::state_keeper::PlasmaStateInitParams`. -/
structure PlasmaStateInitParams where
  accounts : AccountMap
  last_block_number : Nat
  unprocessed_priority_op : Nat
  deriving DecidableEq, Repr

/-- Genesis construction `genesis_state`: a single operator ledger account at index 0, block
number 0, zero unprocessed priority operations. -/
def genesis_state (config_opts : ConfigurationOptions) : PlasmaStateInitParams :=
  let operator_account :=
    Account.default_with_address config_opts.operator_franklin_addr
  { accounts := [(0, operator_account)],
    last_block_number := 0,
    unprocessed_priority_op := 0 }

/-- Account lookup `sk_get_account`: sends a `GetAccount` request (send failure panics with
"sk request send"), awaits the reply channel (recv failure panics with
"sk account resp recv"), and resolves the absent-account sentinel to the
default account for the queried address.  `sendOk` and `reply` are the
environment's answers: `reply = none` models a dropped reply channel,
`reply = some none` the absent-account sentinel. -/
def sk_get_account (sendOk : Bool) (reply : Option (Option Account))
    (address : AccountAddress) : Except String Account :=
  if sendOk then
    match reply with
    | some r =>
        .ok (match r with
             | some acc => acc
             | none => Account.default_with_address address)
    | none => .error "sk account resp recv"
  else .error "sk request send"

/-- Proposed block, `server::mempool::ProposedBlock`. -/
structure ProposedBlock where
  priority_ops : List PriorityOp
  txs : List FranklinTx
  deriving DecidableEq, Repr

/-- The finalized block body inside a commit request (opaque payload). -/
structure Block where
  data : Nat
  deriving DecidableEq, Repr

/-- Sealed-block notification the actor emits, `models::CommitRequest`. -/
structure CommitRequest where
  block : Block
  deriving DecidableEq, Repr

/-- The `next_block` closure: awaits the next item on the actor's output
channel (`recv`); a closed channel (`none`) panics with
"State keeper channel closed", otherwise the notification is returned
unchanged. -/
def next_block (recv : Option CommitRequest) : Except String CommitRequest :=
  match recv with
  | some op => .ok op
  | none => .error "State keeper channel closed"

/-- The environment's answers to every external interaction the harness
performs, in program order.  The two `SendOk` flags report whether the
state-keeper request channel accepted the corresponding send (`false` =
channel closed); `stopSendOk` likewise for the one-shot stop signal. -/
structure Oracle where
  zkAccount1 : ZksyncAccount
  zkAccount2 : ZksyncAccount
  depositResult : Option PriorityOp
  execSendOk : Bool
  sealSendOk : Bool
  recvBlock : Option CommitRequest
  balanceBefore : Option ℚ
  balanceAfter : Option ℚ
  stopSendOk : Bool
  joinOk : Bool
  deriving DecidableEq, Repr

/-- One externally visible action of `init_and_run_state_keeper`, in the
order the harness performs them. -/
inductive HarnessEvent where
  | depositEth (c : DepositEthCall)
  | sendExecuteMiniBlock (b : ProposedBlock)
  | sendSealBlock
  | recvSealedBlock
  | commitBlock (b : Block)
  | getBalance (a : EthAddress)
  | verifyBlock (b : Block)
  | sendStopSignal
  | joinThread
  deriving DecidableEq, Repr

/-- The harness's trace of external actions, and `some msg` when it
terminated by panic with message `msg`. -/
structure HarnessResult where
  trace : List HarnessEvent
  panicMsg : Option String
  deriving DecidableEq, Repr

/-- The operator's on-chain account, constructed twice in the source
(`commit_account` and `eth_account`) from the same configured key and
address. -/
def operator_eth_account (config : ConfigurationOptions) : EthereumAccount :=
  { private_key := config.operator_private_key,
    address := config.operator_eth_addr }

/-- The account registry the scenario constructs: one operator on-chain
account, two freshly generated ledger accounts. -/
def scenario_accounts (config : ConfigurationOptions) (o : Oracle) :
    AccountSet :=
  { eth_accounts := [operator_eth_account config],
    zksync_accounts := [o.zkAccount1, o.zkAccount2] }

/-- The harness scenario `init_and_run_state_keeper`, step by step.  The sends of
`ExecuteMiniBlock` and `SealBlock` and of the stop signal have their results
discarded, exactly as in the source (`.await;` with no `expect`), so the
corresponding oracle flags are never consulted; `next_block`'s closed
channel, the balance queries' `expect("eth balance get")` and the final
`join().expect("sk thread join")` panic.  The commit and verify results are
only printed, never unwrapped. -/
def init_and_run_state_keeper (config : ConfigurationOptions) (o : Oracle) :
    HarnessResult :=
  let accounts := scenario_accounts config o
  let commit_account := operator_eth_account config
  let dep := accounts.deposit 0 0 0 (parse_ether 1) (parse_ether (1/10))
    (fun _ => o.depositResult)
  match dep.1 with
  | .error msg => { trace := dep.2.map .depositEth, panicMsg := some msg }
  | .ok deposit =>
  match (accounts.transfer 0 1 0 (parse_ether (1/4)) 0 0).1,
        (accounts.withdraw 0 0 0 (parse_ether (1/2)) 0 1).1 with
  | .ok transfer1, .ok withdraw =>
    let block : ProposedBlock :=
      { priority_ops := [deposit], txs := [transfer1, withdraw] }
    let tr0 := dep.2.map HarnessEvent.depositEth ++
      [.sendExecuteMiniBlock block, .sendSealBlock, .recvSealedBlock]
    match next_block o.recvBlock with
    | .error msg => { trace := tr0, panicMsg := some msg }
    | .ok new_block =>
    let tr1 := tr0 ++ [.commitBlock new_block.block,
                       .getBalance commit_account.address]
    match o.balanceBefore with
    | none => { trace := tr1, panicMsg := some "eth balance get" }
    | some _before_ver =>
    let tr2 := tr1 ++ [.verifyBlock new_block.block,
                       .getBalance commit_account.address]
    match o.balanceAfter with
    | none => { trace := tr2, panicMsg := some "eth balance get" }
    | some _after_ver =>
    let tr3 := tr2 ++ [.sendStopSignal, .joinThread]
    if o.joinOk then { trace := tr3, panicMsg := none }
    else { trace := tr3, panicMsg := some "sk thread join" }
  | _, _ =>
    { trace := dep.2.map .depositEth, panicMsg := some "index out of bounds" }


/-! Concrete fixtures shared by the witness and counterexample theorems. -/

/-- A concrete configuration. -/
def cfgW : ConfigurationOptions := ⟨⟨1⟩, ⟨2⟩, 3⟩

/-- A concrete first ledger account ("A"). -/
def zkAW : ZksyncAccount := ⟨10, ⟨11⟩⟩

/-- A concrete second ledger account ("B"). -/
def zkBW : ZksyncAccount := ⟨20, ⟨21⟩⟩

/-- A concrete priority operation answered by the chain. -/
def pW : PriorityOp := ⟨0, parse_ether 1, parse_ether (1/10), ⟨11⟩⟩

/-- A concrete sealed-block notification. -/
def nbW : CommitRequest := ⟨⟨99⟩⟩

/-- An oracle on which every external interaction succeeds. -/
def okOracle : Oracle :=
  ⟨zkAW, zkBW, some pW, true, true, some nbW, some 5, some 4, true, true⟩

/-- An oracle on which the request-channel sends fail (channel closed) but
everything else succeeds. -/
def deadSendOracle : Oracle :=
  ⟨zkAW, zkBW, some pW, false, false, some nbW, some 5, some 4, true, true⟩

/-- A concrete registry for the registry-level witnesses. -/
def setW : AccountSet := ⟨[⟨3, ⟨2⟩⟩], [zkAW, zkBW]⟩

/-- C3: the account-lookup helper returns the account the actor replies
with; on the absent-account sentinel it returns the default/zero account
built for exactly the queried address; absence is not surfaced as an
error. -/
theorem sk_get_account_resolves (addr : AccountAddress) (acc : Account) :
    sk_get_account true (some (some acc)) addr = .ok acc ∧
    sk_get_account true (some none) addr =
      .ok (Account.default_with_address addr) ∧
    (Account.default_with_address addr).address = addr := by
  refine ⟨rfl, rfl, rfl⟩

/-- C6: the genesis state holds exactly the operator ledger account, at
index 0, with the default (zero) balance for every token, at block number 0
with zero unprocessed priority operations. -/
theorem genesis_state_single_operator (config : ConfigurationOptions) :
    (genesis_state config).accounts =
      [(0, Account.default_with_address config.operator_franklin_addr)] ∧
    (genesis_state config).accounts.length = 1 ∧
    (genesis_state config).last_block_number = 0 ∧
    (genesis_state config).unprocessed_priority_op = 0 ∧
    (Account.default_with_address config.operator_franklin_addr).address =
      config.operator_franklin_addr ∧
    ∀ token, (Account.default_with_address
      config.operator_franklin_addr).get_balance token = 0 := by
  refine ⟨rfl, rfl, rfl, rfl, rfl, fun token => rfl⟩

/-- C8: awaiting the next sealed block on a closed output channel panics
with "State keeper channel closed"; a delivered notification is returned
unchanged; at the harness level a closed output channel makes the whole
scenario end in that panic. -/
theorem next_block_closed_channel_panics :
    next_block none = .error "State keeper channel closed" ∧
    (∀ op, next_block (some op) = .ok op) ∧
    ∀ config o p, o.depositResult = some p → o.recvBlock = none →
      (init_and_run_state_keeper config o).panicMsg =
        some "State keeper channel closed" := by
  refine ⟨rfl, fun op => rfl, fun config o p hdep hrecv => ?_⟩
  simp [init_and_run_state_keeper, scenario_accounts, AccountSet.deposit,
    AccountSet.transfer, AccountSet.withdraw, next_block, hdep, hrecv]

/-- Witness for C8's harness-level clause at a concrete closed channel. -/
theorem next_block_closed_channel_panics_witness :
    (init_and_run_state_keeper cfgW
      { okOracle with recvBlock := none }).panicMsg =
      some "State keeper channel closed" :=
  next_block_closed_channel_panics.2.2 cfgW
    { okOracle with recvBlock := none } pW rfl rfl

/-- C10: the registry's deposit ignores its token-id argument — two calls
differing only in the token id make the identical on-chain deposit
submission and return the identical result. -/
theorem deposit_ignores_token_id (s : AccountSet) (i j : Nat)
    (t₁ t₂ : TokenId) (amount fee : ℚ)
    (chain : DepositEthCall → Option PriorityOp) :
    s.deposit i j t₁ amount fee chain = s.deposit i j t₂ amount fee chain :=
  rfl

/-- Indexing behaviour of `deposit` with both references in range. -/
theorem deposit_eq_of_lt (s : AccountSet) {i j : Nat}
    (hi : i < s.eth_accounts.length) (hj : j < s.zksync_accounts.length)
    (token : TokenId) (amount fee : ℚ)
    (chain : DepositEthCall → Option PriorityOp) :
    s.deposit i j token amount fee chain =
      ((match chain ⟨s.eth_accounts.get ⟨i, hi⟩, amount, fee,
          (s.zksync_accounts.get ⟨j, hj⟩).address⟩ with
        | some p => .ok p
        | none => .error "deposit should not fail"),
       [⟨s.eth_accounts.get ⟨i, hi⟩, amount, fee,
         (s.zksync_accounts.get ⟨j, hj⟩).address⟩]) := by
  unfold AccountSet.deposit
  rw [List.get?_eq_getElem?, List.get?_eq_getElem?,
    List.getElem?_eq_getElem hi, List.getElem?_eq_getElem hj]
  rfl

/-- Indexing behaviour of `deposit` with an out-of-range reference. -/
theorem deposit_eq_of_oob (s : AccountSet) {i j : Nat}
    (h : s.eth_accounts.length ≤ i ∨ s.zksync_accounts.length ≤ j)
    (token : TokenId) (amount fee : ℚ)
    (chain : DepositEthCall → Option PriorityOp) :
    s.deposit i j token amount fee chain =
      (.error "index out of bounds", []) := by
  unfold AccountSet.deposit
  rcases h with h | h
  · rw [List.get?_eq_getElem?, List.getElem?_eq_none h]
  · rw [List.get?_eq_getElem? s.zksync_accounts j, List.getElem?_eq_none h]
    rcases s.eth_accounts.get? i with _ | f <;> rfl

/-- Indexing behaviour of `transfer` with both references in range. -/
theorem transfer_eq_of_lt (s : AccountSet) {i j : Nat}
    (hi : i < s.zksync_accounts.length) (hj : j < s.zksync_accounts.length)
    (token : TokenId) (amount fee : ℚ) (nonce : Nonce) :
    s.transfer i j token amount fee nonce =
      (.ok (FranklinTx.Transfer ((s.zksync_accounts.get ⟨i, hi⟩).sign_transfer
        token amount fee (s.zksync_accounts.get ⟨j, hj⟩).address nonce)),
       []) := by
  unfold AccountSet.transfer
  rw [List.get?_eq_getElem?, List.get?_eq_getElem?,
    List.getElem?_eq_getElem hi, List.getElem?_eq_getElem hj]
  rfl

/-- Indexing behaviour of `transfer` with an out-of-range reference. -/
theorem transfer_eq_of_oob (s : AccountSet) {i j : Nat}
    (h : s.zksync_accounts.length ≤ i ∨ s.zksync_accounts.length ≤ j)
    (token : TokenId) (amount fee : ℚ) (nonce : Nonce) :
    s.transfer i j token amount fee nonce =
      (.error "index out of bounds", []) := by
  unfold AccountSet.transfer
  rcases h with h | h
  · rw [List.get?_eq_getElem? s.zksync_accounts i, List.getElem?_eq_none h]
  · rw [List.get?_eq_getElem? s.zksync_accounts j, List.getElem?_eq_none h]
    rcases s.zksync_accounts.get? i with _ | f <;> rfl

/-- Indexing behaviour of `withdraw` with both references in range. -/
theorem withdraw_eq_of_lt (s : AccountSet) {i j : Nat}
    (hi : i < s.zksync_accounts.length) (hj : j < s.eth_accounts.length)
    (token : TokenId) (amount fee : ℚ) (nonce : Nonce) :
    s.withdraw i j token amount fee nonce =
      (.ok (FranklinTx.Withdraw ((s.zksync_accounts.get ⟨i, hi⟩).sign_withdraw
        token amount fee (s.eth_accounts.get ⟨j, hj⟩).address nonce)),
       []) := by
  unfold AccountSet.withdraw
  rw [List.get?_eq_getElem?, List.get?_eq_getElem?,
    List.getElem?_eq_getElem hi, List.getElem?_eq_getElem hj]
  rfl

/-- Indexing behaviour of `withdraw` with an out-of-range reference. -/
theorem withdraw_eq_of_oob (s : AccountSet) {i j : Nat}
    (h : s.zksync_accounts.length ≤ i ∨ s.eth_accounts.length ≤ j)
    (token : TokenId) (amount fee : ℚ) (nonce : Nonce) :
    s.withdraw i j token amount fee nonce =
      (.error "index out of bounds", []) := by
  unfold AccountSet.withdraw
  rcases h with h | h
  · rw [List.get?_eq_getElem? s.zksync_accounts i, List.getElem?_eq_none h]
  · rw [List.get?_eq_getElem? s.eth_accounts j, List.getElem?_eq_none h]
    rcases s.zksync_accounts.get? i with _ | f <;> rfl

/-- C5: an out-of-range account reference makes deposit, transfer and
withdraw terminate in the Rust `Vec` index panic (not a recoverable
error); with all references in range the indexing step cannot fail: the
deposit's on-chain submission is made and transfer/withdraw return a
signed transaction. -/
theorem out_of_range_reference_panics (s : AccountSet) (i j : Nat)
    (token : TokenId) (amount fee : ℚ) (nonce : Nonce)
    (chain : DepositEthCall → Option PriorityOp) :
    (s.eth_accounts.length ≤ i ∨ s.zksync_accounts.length ≤ j →
      s.deposit i j token amount fee chain =
        (.error "index out of bounds", [])) ∧
    (s.zksync_accounts.length ≤ i ∨ s.zksync_accounts.length ≤ j →
      s.transfer i j token amount fee nonce =
        (.error "index out of bounds", [])) ∧
    (s.zksync_accounts.length ≤ i ∨ s.eth_accounts.length ≤ j →
      s.withdraw i j token amount fee nonce =
        (.error "index out of bounds", [])) ∧
    (i < s.eth_accounts.length → j < s.zksync_accounts.length →
      (s.deposit i j token amount fee chain).2 ≠ [] ∧
      (s.deposit i j token amount fee chain).1 ≠
        .error "index out of bounds") ∧
    (i < s.zksync_accounts.length → j < s.zksync_accounts.length →
      ∃ tx, (s.transfer i j token amount fee nonce).1 = .ok tx) ∧
    (i < s.zksync_accounts.length → j < s.eth_accounts.length →
      ∃ tx, (s.withdraw i j token amount fee nonce).1 = .ok tx) := by
  refine ⟨fun h => deposit_eq_of_oob s h token amount fee chain,
    fun h => transfer_eq_of_oob s h token amount fee nonce,
    fun h => withdraw_eq_of_oob s h token amount fee nonce,
    fun hi hj => ?_, fun hi hj => ?_, fun hi hj => ?_⟩
  · rw [deposit_eq_of_lt s hi hj token amount fee chain]
    rcases chain ⟨s.eth_accounts.get ⟨i, hi⟩, amount, fee,
        (s.zksync_accounts.get ⟨j, hj⟩).address⟩ with _ | p <;>
      exact ⟨by simp, by simp⟩
  · exact ⟨_, by rw [transfer_eq_of_lt s hi hj token amount fee nonce]⟩
  · exact ⟨_, by rw [withdraw_eq_of_lt s hi hj token amount fee nonce]⟩

/-- Witness for C5 on a concrete registry: reference 5 is out of range for
every collection of `setW` (1 on-chain, 2 ledger accounts) and references
0/1 are in range. -/
theorem out_of_range_reference_panics_witness :
    (setW.eth_accounts.length ≤ 5 ∨ setW.zksync_accounts.length ≤ 0) ∧
    setW.deposit 5 0 0 1 0 (fun _ => some pW) =
      (.error "index out of bounds", []) ∧
    (0 : Nat) < setW.zksync_accounts.length ∧
    (1 : Nat) < setW.zksync_accounts.length ∧
    ∃ tx, (setW.transfer 0 1 0 1 0 0).1 = .ok tx := by
  have h := out_of_range_reference_panics setW 5 0 0 1 0 0
    (fun _ => some pW)
  have h2 := out_of_range_reference_panics setW 0 1 0 1 0 0
    (fun _ => some pW)
  exact ⟨Or.inl (by decide), h.1 (Or.inl (by decide)), by decide, by decide,
    h2.2.2.2.2.1 (by decide) (by decide)⟩

/-- C2: for in-range references, `transfer` returns exactly the
`Transfer`-tagged variant obtained by asking the source ledger account's
credential to sign the fields toward the destination's ledger address, and
`withdraw` the `Withdraw`-tagged variant signed toward the destination's
on-chain address; both perform no on-chain submission (empty submission
list) — the registry itself is taken by shared reference and cannot be
mutated, so the returned structure is the only observable effect. -/
theorem transfer_withdraw_signed_and_effect_free (s : AccountSet)
    (i j k : Nat) (token : TokenId) (amount fee : ℚ) (nonce : Nonce)
    (hi : i < s.zksync_accounts.length) (hj : j < s.zksync_accounts.length)
    (hk : k < s.eth_accounts.length) :
    s.transfer i j token amount fee nonce =
      (.ok (FranklinTx.Transfer ((s.zksync_accounts.get ⟨i, hi⟩).sign_transfer
        token amount fee (s.zksync_accounts.get ⟨j, hj⟩).address nonce)),
        []) ∧
    s.withdraw i k token amount fee nonce =
      (.ok (FranklinTx.Withdraw ((s.zksync_accounts.get ⟨i, hi⟩).sign_withdraw
        token amount fee (s.eth_accounts.get ⟨k, hk⟩).address nonce)),
        []) :=
  ⟨transfer_eq_of_lt s hi hj token amount fee nonce,
   withdraw_eq_of_lt s hi hk token amount fee nonce⟩

/-- Witness for C2 on the concrete registry `setW` (indices 0, 1, 0). -/
theorem transfer_withdraw_signed_and_effect_free_witness :
    setW.transfer 0 1 0 1 0 0 =
      (.ok (FranklinTx.Transfer ((setW.zksync_accounts.get
        ⟨0, by decide⟩).sign_transfer 0 1 0
        (setW.zksync_accounts.get ⟨1, by decide⟩).address 0)), []) ∧
    setW.withdraw 0 0 0 1 0 0 =
      (.ok (FranklinTx.Withdraw ((setW.zksync_accounts.get
        ⟨0, by decide⟩).sign_withdraw 0 1 0
        (setW.eth_accounts.get ⟨0, by decide⟩).address 0)), []) :=
  transfer_withdraw_signed_and_effect_free setW 0 1 0 0 1 0 0
    (by decide) (by decide) (by decide)

/-- C1: with every external interaction succeeding, the end-to-end scenario
constructs one operator on-chain account and two ledger accounts, submits
the 1.0-unit deposit (on-chain → ledger account A) as the sole priority
operation and the 0.25-unit A→B transfer at nonce 0 followed by the
0.5-unit A→on-chain withdraw at nonce 1 as the signed transactions of a
single proposed block, sends that block in one `ExecuteMiniBlock` request
followed by exactly one `SealBlock` request, and then settles. -/
theorem scenario_builds_spec_operations (config : ConfigurationOptions)
    (o : Oracle) (p : PriorityOp) (nb : CommitRequest) (b1 b2 : ℚ)
    (hdep : o.depositResult = some p) (hrecv : o.recvBlock = some nb)
    (hb1 : o.balanceBefore = some b1) (hb2 : o.balanceAfter = some b2) :
    (scenario_accounts config o).eth_accounts.length = 1 ∧
    (scenario_accounts config o).zksync_accounts.length = 2 ∧
    (init_and_run_state_keeper config o).trace =
      [.depositEth ({ account := operator_eth_account config,
                      amount := parse_ether 1,
                      fee := parse_ether (1/10),
                      to_ := o.zkAccount1.address }),
       .sendExecuteMiniBlock
         ({ priority_ops := [p],
            txs := [FranklinTx.Transfer (o.zkAccount1.sign_transfer 0
                      (parse_ether (1/4)) 0 o.zkAccount2.address 0),
                    FranklinTx.Withdraw (o.zkAccount1.sign_withdraw 0
                      (parse_ether (1/2)) 0 config.operator_eth_addr 1)] }),
       .sendSealBlock, .recvSealedBlock,
       .commitBlock nb.block, .getBalance config.operator_eth_addr,
       .verifyBlock nb.block, .getBalance config.operator_eth_addr,
       .sendStopSignal, .joinThread] ∧
    ((init_and_run_state_keeper config o).trace.filter
      (fun e => match e with
        | .sendExecuteMiniBlock _ => true
        | _ => false)).length = 1 ∧
    ((init_and_run_state_keeper config o).trace.filter
      (fun e => match e with
        | .sendSealBlock => true
        | _ => false)).length = 1 := by
  have htr : (init_and_run_state_keeper config o).trace =
      [.depositEth ({ account := operator_eth_account config,
                      amount := parse_ether 1,
                      fee := parse_ether (1/10),
                      to_ := o.zkAccount1.address }),
       .sendExecuteMiniBlock
         ({ priority_ops := [p],
            txs := [FranklinTx.Transfer (o.zkAccount1.sign_transfer 0
                      (parse_ether (1/4)) 0 o.zkAccount2.address 0),
                    FranklinTx.Withdraw (o.zkAccount1.sign_withdraw 0
                      (parse_ether (1/2)) 0 config.operator_eth_addr 1)] }),
       .sendSealBlock, .recvSealedBlock,
       .commitBlock nb.block, .getBalance config.operator_eth_addr,
       .verifyBlock nb.block, .getBalance config.operator_eth_addr,
       .sendStopSignal, .joinThread] := by
    cases hjoin : o.joinOk <;>
      simp [init_and_run_state_keeper, scenario_accounts, AccountSet.deposit,
        AccountSet.transfer, AccountSet.withdraw, next_block,
        operator_eth_account, hdep, hrecv, hb1, hb2, hjoin]
  refine ⟨rfl, rfl, htr, ?_, ?_⟩ <;> rw [htr] <;> rfl

/-- Witness for C1 at the concrete all-success oracle. -/
theorem scenario_builds_spec_operations_witness :
    (scenario_accounts cfgW okOracle).eth_accounts.length = 1 ∧
    (scenario_accounts cfgW okOracle).zksync_accounts.length = 2 ∧
    (init_and_run_state_keeper cfgW okOracle).trace =
      [.depositEth ({ account := operator_eth_account cfgW,
                      amount := parse_ether 1,
                      fee := parse_ether (1/10),
                      to_ := okOracle.zkAccount1.address }),
       .sendExecuteMiniBlock
         ({ priority_ops := [pW],
            txs := [FranklinTx.Transfer (okOracle.zkAccount1.sign_transfer 0
                      (parse_ether (1/4)) 0 okOracle.zkAccount2.address 0),
                    FranklinTx.Withdraw (okOracle.zkAccount1.sign_withdraw 0
                      (parse_ether (1/2)) 0 cfgW.operator_eth_addr 1)] }),
       .sendSealBlock, .recvSealedBlock,
       .commitBlock nbW.block, .getBalance cfgW.operator_eth_addr,
       .verifyBlock nbW.block, .getBalance cfgW.operator_eth_addr,
       .sendStopSignal, .joinThread] ∧
    ((init_and_run_state_keeper cfgW okOracle).trace.filter
      (fun e => match e with
        | .sendExecuteMiniBlock _ => true
        | _ => false)).length = 1 ∧
    ((init_and_run_state_keeper cfgW okOracle).trace.filter
      (fun e => match e with
        | .sendSealBlock => true
        | _ => false)).length = 1 :=
  scenario_builds_spec_operations cfgW okOracle pW nbW 5 4 rfl rfl rfl rfl

/-- C4 counterexample: on an environment where the request-channel sends
fail (channel closed) but the output channel still delivers, the harness
does not abort — it finishes with no panic, having continued past both
failed sends to the seal request and the join. -/
theorem send_failure_not_fatal_cex :
    deadSendOracle.execSendOk = false ∧
    deadSendOracle.sealSendOk = false ∧
    (init_and_run_state_keeper cfgW deadSendOracle).panicMsg = none ∧
    HarnessEvent.sendSealBlock ∈
      (init_and_run_state_keeper cfgW deadSendOracle).trace ∧
    HarnessEvent.joinThread ∈
      (init_and_run_state_keeper cfgW deadSendOracle).trace := by
  refine ⟨rfl, rfl, rfl, ?_, ?_⟩ <;>
    simp [init_and_run_state_keeper, scenario_accounts, AccountSet.deposit,
      AccountSet.transfer, AccountSet.withdraw, next_block,
      deadSendOracle, okOracle]

/-- C4 amended: the harness discards the results of the `ExecuteMiniBlock`
and `SealBlock` sends — its behaviour is identical whether or not the
request channel accepted them — and a dead actor is only detected when the
subsequent await of the sealed-block notification panics with
"State keeper channel closed". -/
theorem send_results_discarded (config : ConfigurationOptions) (o : Oracle)
    (b₁ b₂ : Bool) :
    init_and_run_state_keeper config
        { o with execSendOk := b₁, sealSendOk := b₂ } =
      init_and_run_state_keeper config o ∧
    (∀ p, o.depositResult = some p → o.recvBlock = none →
      (init_and_run_state_keeper config o).panicMsg =
        some "State keeper channel closed") := by
  refine ⟨rfl, fun p hdep hrecv => ?_⟩
  simp [init_and_run_state_keeper, scenario_accounts, AccountSet.deposit,
    AccountSet.transfer, AccountSet.withdraw, next_block, hdep, hrecv]

/-- Witness for C4's amended statement: with the sends failing and the
output channel closed, the scenario's outcome equals the one with
successful sends, and it ends in the closed-channel panic. -/
theorem send_results_discarded_witness :
    init_and_run_state_keeper cfgW
        { { okOracle with recvBlock := none } with
            execSendOk := false, sealSendOk := false } =
      init_and_run_state_keeper cfgW { okOracle with recvBlock := none } ∧
    (∀ p, ({ okOracle with recvBlock := none } : Oracle).depositResult =
        some p →
      ({ okOracle with recvBlock := none } : Oracle).recvBlock = none →
      (init_and_run_state_keeper cfgW
        { okOracle with recvBlock := none }).panicMsg =
        some "State keeper channel closed") :=
  send_results_discarded cfgW { okOracle with recvBlock := none }
    false false

/-- C9: once the scenario body completes, the harness sends the one-shot
stop signal and then joins the actor thread as its last two actions, and
its behaviour is independent of whether the stop signal could be
delivered — shutdown proceeds to the join regardless. -/
theorem shutdown_signal_best_effort (config : ConfigurationOptions)
    (o : Oracle) (b : Bool) (p : PriorityOp) (nb : CommitRequest)
    (b1 b2 : ℚ)
    (hdep : o.depositResult = some p) (hrecv : o.recvBlock = some nb)
    (hb1 : o.balanceBefore = some b1) (hb2 : o.balanceAfter = some b2) :
    (∃ pre, (init_and_run_state_keeper config o).trace =
      pre ++ [HarnessEvent.sendStopSignal, HarnessEvent.joinThread]) ∧
    init_and_run_state_keeper config { o with stopSendOk := b } =
      init_and_run_state_keeper config o := by
  refine ⟨⟨[.depositEth ({ account := operator_eth_account config,
                           amount := parse_ether 1,
                           fee := parse_ether (1/10),
                           to_ := o.zkAccount1.address }),
    .sendExecuteMiniBlock
      ({ priority_ops := [p],
         txs := [FranklinTx.Transfer (o.zkAccount1.sign_transfer 0
                   (parse_ether (1/4)) 0 o.zkAccount2.address 0),
                 FranklinTx.Withdraw (o.zkAccount1.sign_withdraw 0
                   (parse_ether (1/2)) 0 config.operator_eth_addr 1)] }),
    .sendSealBlock, .recvSealedBlock,
    .commitBlock nb.block, .getBalance config.operator_eth_addr,
    .verifyBlock nb.block, .getBalance config.operator_eth_addr], ?_⟩,
    rfl⟩
  cases hjoin : o.joinOk <;>
    simp [init_and_run_state_keeper, scenario_accounts, AccountSet.deposit,
      AccountSet.transfer, AccountSet.withdraw, next_block,
      operator_eth_account, hdep, hrecv, hb1, hb2, hjoin]

/-- Witness for C9 at the concrete all-success oracle. -/
theorem shutdown_signal_best_effort_witness :
    (∃ pre, (init_and_run_state_keeper cfgW okOracle).trace =
      pre ++ [HarnessEvent.sendStopSignal, HarnessEvent.joinThread]) ∧
    init_and_run_state_keeper cfgW { okOracle with stopSendOk := false } =
      init_and_run_state_keeper cfgW okOracle :=
  shutdown_signal_best_effort cfgW okOracle false pW nbW 5 4 rfl rfl rfl rfl

/-- C7: in every environment, whenever the harness submits a verify for a
block, the trace decomposes as a prefix, the commit submission for that
same block, and a suffix containing the verify — commit is issued strictly
before verify for the sealed block received from the output channel. -/
theorem commit_precedes_verify (config : ConfigurationOptions) (o : Oracle)
    (b : Block)
    (h : HarnessEvent.verifyBlock b ∈
      (init_and_run_state_keeper config o).trace) :
    ∃ l₁ l₂, (init_and_run_state_keeper config o).trace =
      l₁ ++ HarnessEvent.commitBlock b :: l₂ ∧
      HarnessEvent.verifyBlock b ∈ l₂ := by
  rcases hdep : o.depositResult with _ | p
  · exfalso
    simp [init_and_run_state_keeper, scenario_accounts, AccountSet.deposit,
      hdep] at h
  rcases hrecv : o.recvBlock with _ | nb
  · exfalso
    simp [init_and_run_state_keeper, scenario_accounts, AccountSet.deposit,
      AccountSet.transfer, AccountSet.withdraw, next_block, hdep,
      hrecv] at h
  rcases hb1 : o.balanceBefore with _ | b1
  · exfalso
    simp [init_and_run_state_keeper, scenario_accounts, AccountSet.deposit,
      AccountSet.transfer, AccountSet.withdraw, next_block, hdep, hrecv,
      hb1] at h
  rcases hb2 : o.balanceAfter with _ | b2
  · have htr : (init_and_run_state_keeper config o).trace =
        [.depositEth ({ account := operator_eth_account config,
                        amount := parse_ether 1,
                        fee := parse_ether (1/10),
                        to_ := o.zkAccount1.address }),
         .sendExecuteMiniBlock
           ({ priority_ops := [p],
              txs := [FranklinTx.Transfer (o.zkAccount1.sign_transfer 0
                        (parse_ether (1/4)) 0 o.zkAccount2.address 0),
                      FranklinTx.Withdraw (o.zkAccount1.sign_withdraw 0
                        (parse_ether (1/2)) 0 config.operator_eth_addr 1)] }),
         .sendSealBlock, .recvSealedBlock,
         .commitBlock nb.block, .getBalance config.operator_eth_addr,
         .verifyBlock nb.block, .getBalance config.operator_eth_addr] := by
      simp [init_and_run_state_keeper, scenario_accounts, AccountSet.deposit,
        AccountSet.transfer, AccountSet.withdraw, next_block,
        operator_eth_account, hdep, hrecv, hb1, hb2]
    rw [htr] at h ⊢
    have hb : b = nb.block := by simpa using h
    subst hb
    refine ⟨[.depositEth ({ account := operator_eth_account config,
                            amount := parse_ether 1,
                            fee := parse_ether (1/10),
                            to_ := o.zkAccount1.address }),
             .sendExecuteMiniBlock
               ({ priority_ops := [p],
                  txs := [FranklinTx.Transfer (o.zkAccount1.sign_transfer 0
                            (parse_ether (1/4)) 0 o.zkAccount2.address 0),
                          FranklinTx.Withdraw (o.zkAccount1.sign_withdraw 0
                            (parse_ether (1/2)) 0
                            config.operator_eth_addr 1)] }),
             .sendSealBlock, .recvSealedBlock],
            [.getBalance config.operator_eth_addr,
             .verifyBlock nb.block, .getBalance config.operator_eth_addr],
            rfl, by simp⟩
  · have htr : (init_and_run_state_keeper config o).trace =
        [.depositEth ({ account := operator_eth_account config,
                        amount := parse_ether 1,
                        fee := parse_ether (1/10),
                        to_ := o.zkAccount1.address }),
         .sendExecuteMiniBlock
           ({ priority_ops := [p],
              txs := [FranklinTx.Transfer (o.zkAccount1.sign_transfer 0
                        (parse_ether (1/4)) 0 o.zkAccount2.address 0),
                      FranklinTx.Withdraw (o.zkAccount1.sign_withdraw 0
                        (parse_ether (1/2)) 0 config.operator_eth_addr 1)] }),
         .sendSealBlock, .recvSealedBlock,
         .commitBlock nb.block, .getBalance config.operator_eth_addr,
         .verifyBlock nb.block, .getBalance config.operator_eth_addr,
         .sendStopSignal, .joinThread] := by
      cases hjoin : o.joinOk <;>
        simp [init_and_run_state_keeper, scenario_accounts,
          AccountSet.deposit, AccountSet.transfer, AccountSet.withdraw,
          next_block, operator_eth_account, hdep, hrecv, hb1, hb2, hjoin]
    rw [htr] at h ⊢
    have hb : b = nb.block := by simpa using h
    subst hb
    refine ⟨[.depositEth ({ account := operator_eth_account config,
                            amount := parse_ether 1,
                            fee := parse_ether (1/10),
                            to_ := o.zkAccount1.address }),
             .sendExecuteMiniBlock
               ({ priority_ops := [p],
                  txs := [FranklinTx.Transfer (o.zkAccount1.sign_transfer 0
                            (parse_ether (1/4)) 0 o.zkAccount2.address 0),
                          FranklinTx.Withdraw (o.zkAccount1.sign_withdraw 0
                            (parse_ether (1/2)) 0
                            config.operator_eth_addr 1)] }),
             .sendSealBlock, .recvSealedBlock],
            [.getBalance config.operator_eth_addr,
             .verifyBlock nb.block, .getBalance config.operator_eth_addr,
             .sendStopSignal, .joinThread],
            rfl, by simp⟩

/-- Witness for C7 at the concrete all-success oracle and its sealed
block. -/
theorem commit_precedes_verify_witness :
    ∃ l₁ l₂, (init_and_run_state_keeper cfgW okOracle).trace =
      l₁ ++ HarnessEvent.commitBlock nbW.block :: l₂ ∧
      HarnessEvent.verifyBlock nbW.block ∈ l₂ :=
  commit_precedes_verify cfgW okOracle nbW.block (by decide)

end TestKit
